import Mathlib

/-!
Verification of the hand-gesture interpretation module of the `splat`
repository (`src/app/utils/gestureDetection.ts`).

The module is pure, synchronous math over 21-point hand skeletons.  We give
a shallow embedding:

* a skeleton (a JavaScript array of exactly 21 landmarks, index-addressed
  through the `HandLandmark` enum) is modelled as a total function
  `Hand := HandLandmark → Landmark`;
* JavaScript numbers are modelled as real numbers `ℝ` for the geometric
  functions (`Math.sqrt`, `Math.atan2` become `Real.sqrt` and an `atan2`
  built from `Real.arctan`);
* `rotationToSliderValue` uses only field operations and the JavaScript `%`
  operator (remainder with the sign of the dividend), all exact on
  rationals, so it is embedded over `ℚ` with a faithful `jsRem`;
* booleans computed from numeric comparisons become `Prop`s.
-/

open Classical

namespace Splat

/-- MediaPipe hand landmarks (21 points per hand), from the `HandLandmark`
enum in `gestureDetection.ts`. -/
inductive HandLandmark where
  | WRIST
  | THUMB_CMC
  | THUMB_MCP
  | THUMB_IP
  | THUMB_TIP
  | INDEX_FINGER_MCP
  | INDEX_FINGER_PIP
  | INDEX_FINGER_DIP
  | INDEX_FINGER_TIP
  | MIDDLE_FINGER_MCP
  | MIDDLE_FINGER_PIP
  | MIDDLE_FINGER_DIP
  | MIDDLE_FINGER_TIP
  | RING_FINGER_MCP
  | RING_FINGER_PIP
  | RING_FINGER_DIP
  | RING_FINGER_TIP
  | PINKY_MCP
  | PINKY_PIP
  | PINKY_DIP
  | PINKY_TIP
  deriving DecidableEq

/-- A landmark `{x, y, z}` (normalized camera coordinates, relative depth). -/
structure Landmark where
  x : ℝ
  y : ℝ
  z : ℝ

/-- A hand skeleton: the code's 21-element landmark array, modelled as a
total function from the landmark enum. -/
def Hand : Type := HandLandmark → Landmark

/-- `distance`: 3D Euclidean distance between two landmarks
(`Math.sqrt` of the sum of squared coordinate differences). -/
noncomputable def distance (a b : Landmark) : ℝ :=
  Real.sqrt ((a.x - b.x) ^ 2 + (a.y - b.y) ^ 2 + (a.z - b.z) ^ 2)

/-- `distance2D`: 2D distance ignoring the z-axis. -/
noncomputable def distance2D (a b : Landmark) : ℝ :=
  Real.sqrt ((a.x - b.x) ^ 2 + (a.y - b.y) ^ 2)

/-- A 2D point `{x, y}` (used for pinch midpoints and the palm center). -/
structure Point2 where
  x : ℝ
  y : ℝ

/-- A pinch gesture record.  The code's boolean `isPinching` is a numeric
comparison; it is modelled as a `Prop`. -/
structure PinchGesture where
  isPinching : Prop
  fingers : List String
  strength : ℝ
  position : Point2

/-- `getLandmarkName`: human-readable name for a fingertip landmark,
`"unknown"` for every other landmark. -/
def getLandmarkName (landmark : HandLandmark) : String :=
  match landmark with
  | HandLandmark.THUMB_TIP => "thumb"
  | HandLandmark.INDEX_FINGER_TIP => "index"
  | HandLandmark.MIDDLE_FINGER_TIP => "middle"
  | HandLandmark.RING_FINGER_TIP => "ring"
  | HandLandmark.PINKY_TIP => "pinky"
  | _ => "unknown"

/-- `detectPinch`: detect whether two fingertips pinch together.  The source
default for `threshold` is `0.08`; callers that rely on the default pass
`0.08` explicitly here. -/
noncomputable def detectPinch (landmarks : Hand) (finger1 finger2 : HandLandmark)
    (threshold : ℝ) : PinchGesture :=
  let tip1 := landmarks finger1
  let tip2 := landmarks finger2
  let dist := distance tip1 tip2
  let isPinching := dist < threshold
  let strength := max 0 (min 1 (1 - dist / threshold))
  let position : Point2 := { x := (tip1.x + tip2.x) / 2, y := (tip1.y + tip2.y) / 2 }
  { isPinching := isPinching
    fingers := [getLandmarkName finger1, getLandmarkName finger2]
    strength := strength
    position := position }

/-- The all-zero skeleton, used as a concrete input in witnesses. -/
def zeroHand : Hand := fun _ => { x := 0, y := 0, z := 0 }

/-- The `fingerTips` table of `detectAllPinches` (names paired with tip
landmarks in the source; only the landmarks are consumed by the loop). -/
def fingerTips : List HandLandmark :=
  [HandLandmark.THUMB_TIP, HandLandmark.INDEX_FINGER_TIP, HandLandmark.MIDDLE_FINGER_TIP,
   HandLandmark.RING_FINGER_TIP, HandLandmark.PINKY_TIP]

/-- `detectAllPinches`: the source loops `i = 1 .. 4` over `fingerTips`,
checks the thumb tip against `fingerTips[i]` with the default threshold
`0.08`, and pushes the pinch when `isPinching` holds; the loop is embedded
as a `foldl` over `fingerTips.drop 1`. -/
noncomputable def detectAllPinches (landmarks : Hand) : List PinchGesture :=
  (fingerTips.drop 1).foldl
    (fun pinches f =>
      if (detectPinch landmarks HandLandmark.THUMB_TIP f 0.08).isPinching then
        pinches ++ [detectPinch landmarks HandLandmark.THUMB_TIP f 0.08]
      else pinches) []

/-- The four thumb-fingertip pinch candidates in the claimed fixed order
(thumb+index, thumb+middle, thumb+ring, thumb+pinky); spec-side list used to
state C2. -/
noncomputable def thumbPinchCandidates (landmarks : Hand) : List PinchGesture :=
  [HandLandmark.INDEX_FINGER_TIP, HandLandmark.MIDDLE_FINGER_TIP,
   HandLandmark.RING_FINGER_TIP, HandLandmark.PINKY_TIP].map
    (fun f => detectPinch landmarks HandLandmark.THUMB_TIP f 0.08)

/-- `{roll, pitch, yaw}` in degrees. -/
structure HandRotation where
  roll : ℝ
  pitch : ℝ
  yaw : ℝ

/-- JavaScript `Math.atan2(y, x)` over the reals (the real plane has no
signed zero, so `atan2 0 0 = 0`, the `+0` behaviour). -/
noncomputable def atan2 (y x : ℝ) : ℝ :=
  if 0 < x then Real.arctan (y / x)
  else if x < 0 then
    if 0 ≤ y then Real.arctan (y / x) + Real.pi else Real.arctan (y / x) - Real.pi
  else
    if 0 < y then Real.pi / 2 else if y < 0 then -(Real.pi / 2) else 0

/-- `radToDeg`: convert radians to degrees. -/
noncomputable def radToDeg (rad : ℝ) : ℝ := rad * (180 / Real.pi)

/-- `calculateHandRotation`: roll from palm center to middle fingertip,
pitch from the depth delta over the absolute vertical delta of the
wrist→middle-MCP vector, yaw from the depth delta across the palm width. -/
noncomputable def calculateHandRotation (landmarks : Hand) : HandRotation :=
  let wrist := landmarks HandLandmark.WRIST
  let indexMCP := landmarks HandLandmark.INDEX_FINGER_MCP
  let pinkyMCP := landmarks HandLandmark.PINKY_MCP
  let middleMCP := landmarks HandLandmark.MIDDLE_FINGER_MCP
  let middleTip := landmarks HandLandmark.MIDDLE_FINGER_TIP
  let palmCenterX := (wrist.x + indexMCP.x + pinkyMCP.x) / 3
  let palmCenterY := (wrist.y + indexMCP.y + pinkyMCP.y) / 3
  let dx := middleTip.x - palmCenterX
  let dy := middleTip.y - palmCenterY
  let roll := atan2 dy dx
  let pitchDy := middleMCP.y - wrist.y
  let pitchDz := middleMCP.z - wrist.z
  let pitch := atan2 pitchDz |pitchDy|
  let yawDx := indexMCP.x - pinkyMCP.x
  let yawDz := indexMCP.z - pinkyMCP.z
  let yaw := atan2 yawDz yawDx
  { roll := radToDeg roll, pitch := radToDeg pitch, yaw := radToDeg yaw }

/-- `isFingerExtended`: a finger counts as extended when its tip is farther
from the wrist (in 2D) than its reference joint is, with a 10% margin.  The
source's `wrist` parameter defaults to `HandLandmark.WRIST`; callers here
pass it explicitly. -/
def isFingerExtended (landmarks : Hand) (fingerTip fingerPIP wrist : HandLandmark) : Prop :=
  let tip := landmarks fingerTip
  let pip := landmarks fingerPIP
  let wristPoint := landmarks wrist
  let tipDist := distance2D tip wristPoint
  let pipDist := distance2D pip wristPoint
  tipDist > pipDist * 1.1

/-- The 5-entry finger-extension map. -/
structure FingerStates where
  thumb : Prop
  index : Prop
  middle : Prop
  ring : Prop
  pinky : Prop

/-- `detectFingerStates`: per-finger extension flags with the source's
joint pairs (thumb uses `THUMB_IP`, ring uses `RING_FINGER_DIP`, the other
fingers use their PIP joints). -/
def detectFingerStates (landmarks : Hand) : FingerStates :=
  { thumb := isFingerExtended landmarks HandLandmark.THUMB_TIP
      HandLandmark.THUMB_IP HandLandmark.WRIST
    index := isFingerExtended landmarks HandLandmark.INDEX_FINGER_TIP
      HandLandmark.INDEX_FINGER_PIP HandLandmark.WRIST
    middle := isFingerExtended landmarks HandLandmark.MIDDLE_FINGER_TIP
      HandLandmark.MIDDLE_FINGER_PIP HandLandmark.WRIST
    ring := isFingerExtended landmarks HandLandmark.RING_FINGER_TIP
      HandLandmark.RING_FINGER_DIP HandLandmark.WRIST
    pinky := isFingerExtended landmarks HandLandmark.PINKY_TIP
      HandLandmark.PINKY_PIP HandLandmark.WRIST }

/-- The five entries of a finger-state map in insertion order (the order
`Object.values` yields in the source); spec-side list used to state C3. -/
def fingerStateList (fs : FingerStates) : List Prop :=
  [fs.thumb, fs.index, fs.middle, fs.ring, fs.pinky]

/-- `calculatePalmCenter`: mean of wrist, index MCP and pinky MCP. -/
noncomputable def calculatePalmCenter (landmarks : Hand) : Point2 :=
  let wrist := landmarks HandLandmark.WRIST
  let indexMCP := landmarks HandLandmark.INDEX_FINGER_MCP
  let pinkyMCP := landmarks HandLandmark.PINKY_MCP
  { x := (wrist.x + indexMCP.x + pinkyMCP.x) / 3
    y := (wrist.y + indexMCP.y + pinkyMCP.y) / 3 }

/-- `calculatePalmArea`: shoelace formula over the 5 central palm landmarks
(the source's modular-index loop is unrolled over the five fixed points). -/
noncomputable def calculatePalmArea (landmarks : Hand) : ℝ :=
  let p0 := landmarks HandLandmark.WRIST
  let p1 := landmarks HandLandmark.INDEX_FINGER_MCP
  let p2 := landmarks HandLandmark.MIDDLE_FINGER_MCP
  let p3 := landmarks HandLandmark.RING_FINGER_MCP
  let p4 := landmarks HandLandmark.PINKY_MCP
  let area := (p0.x * p1.y - p1.x * p0.y) + (p1.x * p2.y - p2.x * p1.y)
    + (p2.x * p3.y - p3.x * p2.y) + (p3.x * p4.y - p4.x * p3.y)
    + (p4.x * p0.y - p0.x * p4.y)
  |area| / 2

/-- `isPalmFacingCamera`: conjunction of the source's three depth checks. -/
def isPalmFacingCamera (landmarks : Hand) : Prop :=
  let wrist := landmarks HandLandmark.WRIST
  let middleMCP := landmarks HandLandmark.MIDDLE_FINGER_MCP
  let middleTip := landmarks HandLandmark.MIDDLE_FINGER_TIP
  let indexMCP := landmarks HandLandmark.INDEX_FINGER_MCP
  let pinkyMCP := landmarks HandLandmark.PINKY_MCP
  let wristBehindPalm := wrist.z > middleMCP.z - 0.02
  let palmFlatToCamera := |indexMCP.z - pinkyMCP.z| < 0.05
  let fingersForward := middleTip.z < wrist.z + 0.02
  wristBehindPalm ∧ palmFlatToCamera ∧ fingersForward

/-- `calculateHandSize`: average 2D distance from wrist to the five
fingertips (the source's `reduce` over the fingertip list is unrolled). -/
noncomputable def calculateHandSize (landmarks : Hand) : ℝ :=
  let wrist := landmarks HandLandmark.WRIST
  (distance2D wrist (landmarks HandLandmark.THUMB_TIP)
    + distance2D wrist (landmarks HandLandmark.INDEX_FINGER_TIP)
    + distance2D wrist (landmarks HandLandmark.MIDDLE_FINGER_TIP)
    + distance2D wrist (landmarks HandLandmark.RING_FINGER_TIP)
    + distance2D wrist (landmarks HandLandmark.PINKY_TIP)) / 5

/-- The complete gesture state for one hand. -/
structure GestureState where
  pinches : List PinchGesture
  rotation : HandRotation
  palmCenter : Point2
  palmArea : ℝ
  isOpen : Prop
  isFist : Prop
  isPalmFacingCamera : Prop
  handSize : ℝ
  fingerStates : FingerStates

/-- `analyzeGesture`: the composite per-hand analysis.  The source's
`Object.values(fingerStates).every(...)` runs over the five entries of the
finger-state record in insertion order; it is embedded as the conjunction of
the five fields (respectively of their negations for `isFist`). -/
noncomputable def analyzeGesture (landmarks : Hand) : GestureState :=
  let pinches := detectAllPinches landmarks
  let rotation := calculateHandRotation landmarks
  let palmCenter := calculatePalmCenter landmarks
  let palmArea := calculatePalmArea landmarks
  let fingerStates := detectFingerStates landmarks
  let handSize := calculateHandSize landmarks
  let isOpen := fingerStates.thumb ∧ fingerStates.index ∧ fingerStates.middle
    ∧ fingerStates.ring ∧ fingerStates.pinky
  let isFist := ¬fingerStates.thumb ∧ ¬fingerStates.index ∧ ¬fingerStates.middle
    ∧ ¬fingerStates.ring ∧ ¬fingerStates.pinky
  let palmFacingCamera := isPalmFacingCamera landmarks
  { pinches := pinches
    rotation := rotation
    palmCenter := palmCenter
    palmArea := palmArea
    isOpen := isOpen
    isFist := isFist
    isPalmFacingCamera := palmFacingCamera
    handSize := handSize
    fingerStates := fingerStates }

/-- `rotationToSliderValue` uses only field operations and the JavaScript
`%` operator, so it is embedded exactly over `ℚ`.  `ratTrunc` is truncation
toward zero, as a rational. -/
def ratTrunc (q : ℚ) : ℚ := if 0 ≤ q then (⌊q⌋ : ℚ) else (⌈q⌉ : ℚ)

/-- JavaScript `x % y`: remainder with the sign of the dividend,
`x - y * trunc(x / y)`. -/
def jsRem (x y : ℚ) : ℚ := x - y * ratTrunc (x / y)

/-- `rotationToSliderValue(angle, min, max)`: maps an angle to a slider
range via `((angle + 180) % 360) / 360` (the source comment says this
normalizes to `0..360`, which only holds for `angle + 180 ≥ 0`). -/
def rotationToSliderValue (angle lo hi : ℚ) : ℚ :=
  let normalized := jsRem (angle + 180) 360 / 360
  lo + normalized * (hi - lo)

/-- `KNUCKLE_MCPS`: the four non-thumb MCP joints. -/
def KNUCKLE_MCPS : List HandLandmark :=
  [HandLandmark.INDEX_FINGER_MCP, HandLandmark.MIDDLE_FINGER_MCP,
   HandLandmark.RING_FINGER_MCP, HandLandmark.PINKY_MCP]

/-- `detectKnucklesTogetherGesture`: both hands' knuckle centroids are close
in 3D (source `reduce` sums become `foldl` sums). -/
noncomputable def detectKnucklesTogetherGesture
    (leftHandLandmarks rightHandLandmarks : Hand) : Prop :=
  let leftKnuckles := KNUCKLE_MCPS.map (fun i => leftHandLandmarks i)
  let rightKnuckles := KNUCKLE_MCPS.map (fun i => rightHandLandmarks i)
  let leftCx := leftKnuckles.foldl (fun s p => s + p.x) 0 / (leftKnuckles.length : ℝ)
  let leftCy := leftKnuckles.foldl (fun s p => s + p.y) 0 / (leftKnuckles.length : ℝ)
  let leftCz := leftKnuckles.foldl (fun s p => s + p.z) 0 / (leftKnuckles.length : ℝ)
  let rightCx := rightKnuckles.foldl (fun s p => s + p.x) 0 / (rightKnuckles.length : ℝ)
  let rightCy := rightKnuckles.foldl (fun s p => s + p.y) 0 / (rightKnuckles.length : ℝ)
  let rightCz := rightKnuckles.foldl (fun s p => s + p.z) 0 / (rightKnuckles.length : ℝ)
  let leftCenter : Landmark := { x := leftCx, y := leftCy, z := leftCz }
  let rightCenter : Landmark := { x := rightCx, y := rightCy, z := rightCz }
  let d := distance leftCenter rightCenter
  d < 0.12

/-- The 3D centroid of a hand's four non-thumb MCP joints, as the spec
describes it (spec-side definition used to state C8). -/
noncomputable def knuckleCentroid (h : Hand) : Landmark :=
  { x := ((h HandLandmark.INDEX_FINGER_MCP).x + (h HandLandmark.MIDDLE_FINGER_MCP).x
      + (h HandLandmark.RING_FINGER_MCP).x + (h HandLandmark.PINKY_MCP).x) / 4
    y := ((h HandLandmark.INDEX_FINGER_MCP).y + (h HandLandmark.MIDDLE_FINGER_MCP).y
      + (h HandLandmark.RING_FINGER_MCP).y + (h HandLandmark.PINKY_MCP).y) / 4
    z := ((h HandLandmark.INDEX_FINGER_MCP).z + (h HandLandmark.MIDDLE_FINGER_MCP).z
      + (h HandLandmark.RING_FINGER_MCP).z + (h HandLandmark.PINKY_MCP).z) / 4 }

end Splat

namespace Splat

/-- A fold that pushes `g f` whenever `p (g f)` holds collects exactly the
filtered image, in order. -/
lemma foldl_push_filter {α β : Type} (g : α → β) (p : β → Prop)
    (l : List α) (acc : List β) :
    l.foldl (fun pinches f => if p (g f) then pinches ++ [g f] else pinches) acc
      = acc ++ (l.map g).filter (fun b => decide (p b)) := by
  induction l generalizing acc with
  | nil => simp
  | cons a l ih =>
    by_cases h : p (g a) <;>
      simp [List.foldl_cons, List.map_cons, List.filter_cons, h, ih]

/-- The arctangent is nonpositive on nonpositive arguments. -/
lemma arctan_nonpos_of_nonpos {t : ℝ} (ht : t ≤ 0) : Real.arctan t ≤ 0 := by
  have h := Real.arctan_strictMono.monotone ht
  simpa [Real.arctan_zero] using h

/-- The arctangent is nonnegative on nonnegative arguments. -/
lemma arctan_nonneg_of_nonneg {t : ℝ} (ht : 0 ≤ t) : 0 ≤ Real.arctan t := by
  have h := Real.arctan_strictMono.monotone ht
  simpa [Real.arctan_zero] using h

/-- `atan2` always lands in `[-π, π]`. -/
lemma atan2_mem (y x : ℝ) : -Real.pi ≤ atan2 y x ∧ atan2 y x ≤ Real.pi := by
  have hpi := Real.pi_pos
  have hu := Real.arctan_lt_pi_div_two
  have hl := Real.neg_pi_div_two_lt_arctan
  unfold atan2
  split_ifs with h1 h2 h3 h4 h5
  · constructor <;> [linarith [hl (y / x)]; linarith [hu (y / x)]]
  · have hyx : y / x ≤ 0 := div_nonpos_of_nonneg_of_nonpos h3 h2.le
    have := arctan_nonpos_of_nonpos hyx
    constructor <;> [linarith [hl (y / x)]; linarith]
  · have := arctan_nonneg_of_nonneg (le_of_lt (div_pos_of_neg_of_neg (by linarith) h2))
    constructor <;> [linarith; linarith [hu (y / x)]]
  · constructor <;> linarith
  · constructor <;> linarith
  · constructor <;> linarith

/-- With a nonnegative second argument, `atan2` lands in `[-π/2, π/2]`. -/
lemma atan2_mem_of_nonneg (y x : ℝ) (hx : 0 ≤ x) :
    -(Real.pi / 2) ≤ atan2 y x ∧ atan2 y x ≤ Real.pi / 2 := by
  have hpi := Real.pi_pos
  have hu := Real.arctan_lt_pi_div_two
  have hl := Real.neg_pi_div_two_lt_arctan
  unfold atan2
  split_ifs with h1 h2 h3 h4 h5
  · constructor <;> [linarith [hl (y / x)]; linarith [hu (y / x)]]
  · linarith
  · linarith
  · constructor <;> linarith
  · constructor <;> linarith
  · constructor <;> linarith

/-- Degrees stay in `[-180, 180]` when radians stay in `[-π, π]`. -/
lemma radToDeg_bounds {r : ℝ} (h1 : -Real.pi ≤ r) (h2 : r ≤ Real.pi) :
    -180 ≤ radToDeg r ∧ radToDeg r ≤ 180 := by
  have hπ := Real.pi_pos
  have hc : 0 < 180 / Real.pi := by positivity
  have e : Real.pi * (180 / Real.pi) = 180 := by field_simp
  unfold radToDeg
  constructor
  · nlinarith [mul_le_mul_of_nonneg_right h1 hc.le]
  · nlinarith [mul_le_mul_of_nonneg_right h2 hc.le]

/-- Degrees stay in `[-90, 90]` when radians stay in `[-π/2, π/2]`. -/
lemma radToDeg_bounds_half {r : ℝ} (h1 : -(Real.pi / 2) ≤ r) (h2 : r ≤ Real.pi / 2) :
    -90 ≤ radToDeg r ∧ radToDeg r ≤ 90 := by
  have hπ := Real.pi_pos
  have hc : 0 < 180 / Real.pi := by positivity
  have e : Real.pi / 2 * (180 / Real.pi) = 90 := by field_simp; ring
  unfold radToDeg
  constructor
  · nlinarith [mul_le_mul_of_nonneg_right h1 hc.le]
  · nlinarith [mul_le_mul_of_nonneg_right h2 hc.le]

/-- `detectAllPinches` is the filtered candidate list. -/
lemma detectAllPinches_eq_filter (lm : Hand) :
    detectAllPinches lm
      = (thumbPinchCandidates lm).filter (fun pg => decide pg.isPinching) := by
  have h := foldl_push_filter
    (fun f => detectPinch lm HandLandmark.THUMB_TIP f 0.08)
    (fun pg => pg.isPinching) (fingerTips.drop 1) []
  simpa [detectAllPinches, thumbPinchCandidates, fingerTips] using h

end Splat

namespace Splat

/-- C9: for every pair of landmarks, the 3D Euclidean distance (over x, y, z)
is at least the 2D Euclidean distance (over x, y only). -/
theorem distance_ge_distance2D (a b : Landmark) : distance2D a b ≤ distance a b := by
  unfold distance distance2D
  apply Real.sqrt_le_sqrt
  nlinarith [sq_nonneg (a.z - b.z)]

/-- C1: for every skeleton and every positive threshold `t`, `detectPinch`
reports `isPinching` exactly when the 3D distance between the two named
landmarks is strictly below `t`; its strength is the clamp of
`1 - distance / t` to `[0, 1]`, equal to `1` at distance `0`, equal to `0` at
and beyond `t`, monotonically decreasing in the distance, and never outside
`[0, 1]`. -/
theorem detectPinch_spec (f1 f2 : HandLandmark) (t : ℝ) (ht : 0 < t) :
    (∀ lm : Hand,
      ((detectPinch lm f1 f2 t).isPinching ↔ distance (lm f1) (lm f2) < t)
      ∧ (detectPinch lm f1 f2 t).strength
          = max 0 (min 1 (1 - distance (lm f1) (lm f2) / t))
      ∧ (distance (lm f1) (lm f2) = 0 → (detectPinch lm f1 f2 t).strength = 1)
      ∧ (t ≤ distance (lm f1) (lm f2) → (detectPinch lm f1 f2 t).strength = 0)
      ∧ 0 ≤ (detectPinch lm f1 f2 t).strength
      ∧ (detectPinch lm f1 f2 t).strength ≤ 1)
    ∧ (∀ lm lm' : Hand,
        distance (lm f1) (lm f2) ≤ distance (lm' f1) (lm' f2) →
        (detectPinch lm' f1 f2 t).strength ≤ (detectPinch lm f1 f2 t).strength) := by
  constructor
  · intro lm
    refine ⟨Iff.rfl, rfl, ?_, ?_, ?_, ?_⟩
    · intro h0
      show max 0 (min 1 (1 - distance (lm f1) (lm f2) / t)) = 1
      rw [h0]
      norm_num
    · intro hge
      show max 0 (min 1 (1 - distance (lm f1) (lm f2) / t)) = 0
      have h1 : (1:ℝ) ≤ distance (lm f1) (lm f2) / t := (one_le_div ht).mpr hge
      rw [min_eq_right (by linarith), max_eq_left (by linarith)]
    · exact le_max_left 0 _
    · exact max_le (by norm_num) (min_le_left 1 _)
  · intro lm lm' hd
    show max 0 (min 1 (1 - distance (lm' f1) (lm' f2) / t))
      ≤ max 0 (min 1 (1 - distance (lm f1) (lm f2) / t))
    have : distance (lm f1) (lm f2) / t ≤ distance (lm' f1) (lm' f2) / t := by gcongr
    exact max_le_max le_rfl (min_le_min le_rfl (by linarith))

/-- Witness for C1 at the all-zero skeleton with threshold `1`: the
hypothesis `0 < 1` holds and the fingertips there pinch with strength `1`. -/
theorem detectPinch_spec_witness :
    (0:ℝ) < 1 ∧ (detectPinch zeroHand HandLandmark.THUMB_TIP HandLandmark.INDEX_FINGER_TIP 1).isPinching
      ∧ (detectPinch zeroHand HandLandmark.THUMB_TIP HandLandmark.INDEX_FINGER_TIP 1).strength = 1 := by
  have hd : distance (zeroHand HandLandmark.THUMB_TIP) (zeroHand HandLandmark.INDEX_FINGER_TIP) = 0 := by
    simp [distance, zeroHand]
  have h := (detectPinch_spec HandLandmark.THUMB_TIP HandLandmark.INDEX_FINGER_TIP 1
    (by norm_num)).1 zeroHand
  exact ⟨by norm_num, h.1.mpr (by rw [hd]; norm_num), h.2.2.1 hd⟩

/-- C2: for every skeleton, `detectAllPinches` evaluates only the four
thumb-fingertip pairs, returns exactly those pairs whose `isPinching` holds,
preserves the fixed order (thumb+index, thumb+middle, thumb+ring,
thumb+pinky) among the returned entries, and returns the empty list when no
pair is pinching. -/
theorem detectAllPinches_spec (lm : Hand) :
    (detectAllPinches lm).Sublist (thumbPinchCandidates lm)
    ∧ (∀ p ∈ detectAllPinches lm, p.isPinching)
    ∧ (∀ q ∈ thumbPinchCandidates lm, q.isPinching → q ∈ detectAllPinches lm)
    ∧ ((∀ q ∈ thumbPinchCandidates lm, ¬ q.isPinching) → detectAllPinches lm = []) := by
  rw [detectAllPinches_eq_filter lm]
  refine ⟨List.filter_sublist _, ?_, ?_, ?_⟩
  · intro p hp
    exact of_decide_eq_true (List.mem_filter.mp hp).2
  · intro q hq hpin
    exact List.mem_filter.mpr ⟨hq, decide_eq_true hpin⟩
  · intro hall
    rw [List.filter_eq_nil_iff]
    intro a ha
    simpa using hall a ha

/-- Witness for C2 at the all-zero skeleton: the returned list is a
sublist of the ordered candidate list. -/
theorem detectAllPinches_spec_witness :
    (detectAllPinches zeroHand).Sublist (thumbPinchCandidates zeroHand) :=
  (detectAllPinches_spec zeroHand).1

/-- C5: a finger is classified extended exactly when the 2D distance from
its tip to the wrist strictly exceeds 1.1 times the 2D distance from its
reference joint to the wrist; `detectFingerStates` uses `THUMB_IP` for the
thumb, `RING_FINGER_DIP` for the ring finger, and the PIP joints for index,
middle and pinky. -/
theorem detectFingerStates_spec (lm : Hand) :
    (∀ tip ref w : HandLandmark,
      (isFingerExtended lm tip ref w ↔
        distance2D (lm tip) (lm w) > distance2D (lm ref) (lm w) * 1.1))
    ∧ ((detectFingerStates lm).thumb ↔
        distance2D (lm HandLandmark.THUMB_TIP) (lm HandLandmark.WRIST)
          > distance2D (lm HandLandmark.THUMB_IP) (lm HandLandmark.WRIST) * 1.1)
    ∧ ((detectFingerStates lm).index ↔
        distance2D (lm HandLandmark.INDEX_FINGER_TIP) (lm HandLandmark.WRIST)
          > distance2D (lm HandLandmark.INDEX_FINGER_PIP) (lm HandLandmark.WRIST) * 1.1)
    ∧ ((detectFingerStates lm).middle ↔
        distance2D (lm HandLandmark.MIDDLE_FINGER_TIP) (lm HandLandmark.WRIST)
          > distance2D (lm HandLandmark.MIDDLE_FINGER_PIP) (lm HandLandmark.WRIST) * 1.1)
    ∧ ((detectFingerStates lm).ring ↔
        distance2D (lm HandLandmark.RING_FINGER_TIP) (lm HandLandmark.WRIST)
          > distance2D (lm HandLandmark.RING_FINGER_DIP) (lm HandLandmark.WRIST) * 1.1)
    ∧ ((detectFingerStates lm).pinky ↔
        distance2D (lm HandLandmark.PINKY_TIP) (lm HandLandmark.WRIST)
          > distance2D (lm HandLandmark.PINKY_PIP) (lm HandLandmark.WRIST) * 1.1) :=
  ⟨fun _ _ _ => Iff.rfl, Iff.rfl, Iff.rfl, Iff.rfl, Iff.rfl, Iff.rfl⟩

/-- C3: `isOpen` holds exactly when all five finger states hold and `isFist`
exactly when all five fail; whenever the finger-state map has at least one
true and one false entry both flags are false, and the two flags are never
simultaneously true. -/
theorem analyzeGesture_open_fist_spec (lm : Hand) :
    ((analyzeGesture lm).isOpen ↔ ∀ s ∈ fingerStateList (detectFingerStates lm), s)
    ∧ ((analyzeGesture lm).isFist ↔ ∀ s ∈ fingerStateList (detectFingerStates lm), ¬s)
    ∧ ((∃ s ∈ fingerStateList (detectFingerStates lm), s) →
       (∃ s ∈ fingerStateList (detectFingerStates lm), ¬s) →
        ¬(analyzeGesture lm).isOpen ∧ ¬(analyzeGesture lm).isFist)
    ∧ ¬((analyzeGesture lm).isOpen ∧ (analyzeGesture lm).isFist) := by
  simp only [analyzeGesture, fingerStateList, List.mem_cons, List.not_mem_nil,
    List.mem_singleton, forall_eq_or_imp, forall_eq, exists_eq_or_imp, exists_eq_left]
  tauto

/-- Witness for C3 at the all-zero skeleton: the two flags are not
simultaneously true there. -/
theorem analyzeGesture_open_fist_spec_witness :
    ¬((analyzeGesture zeroHand).isOpen ∧ (analyzeGesture zeroHand).isFist) :=
  (analyzeGesture_open_fist_spec zeroHand).2.2.2

/-- C7: `isPalmFacingCamera` holds exactly when all three depth checks hold
simultaneously (wrist z behind the middle-MCP z up to 0.02, index-MCP and
pinky-MCP z within 0.05 of each other, middle fingertip z at most 0.02
beyond the wrist z); if any one check fails the result is false. -/
theorem isPalmFacingCamera_spec (lm : Hand) :
    (isPalmFacingCamera lm ↔
      ((lm HandLandmark.WRIST).z > (lm HandLandmark.MIDDLE_FINGER_MCP).z - 0.02
        ∧ |(lm HandLandmark.INDEX_FINGER_MCP).z - (lm HandLandmark.PINKY_MCP).z| < 0.05
        ∧ (lm HandLandmark.MIDDLE_FINGER_TIP).z < (lm HandLandmark.WRIST).z + 0.02))
    ∧ (¬((lm HandLandmark.WRIST).z > (lm HandLandmark.MIDDLE_FINGER_MCP).z - 0.02)
        → ¬isPalmFacingCamera lm)
    ∧ (¬(|(lm HandLandmark.INDEX_FINGER_MCP).z - (lm HandLandmark.PINKY_MCP).z| < 0.05)
        → ¬isPalmFacingCamera lm)
    ∧ (¬((lm HandLandmark.MIDDLE_FINGER_TIP).z < (lm HandLandmark.WRIST).z + 0.02)
        → ¬isPalmFacingCamera lm) := by
  unfold isPalmFacingCamera
  tauto

/-- Witness for C7 at the all-zero skeleton: all three depth checks hold
there, so the palm counts as facing the camera. -/
theorem isPalmFacingCamera_spec_witness : isPalmFacingCamera zeroHand :=
  (isPalmFacingCamera_spec zeroHand).1.mpr (by norm_num [zeroHand])

/-- C8: `detectKnucklesTogetherGesture` averages each hand's four non-thumb
MCP joints into one 3D centroid per hand and holds exactly when the two
centroids' 3D distance is below 0.12; centroids within 0.12 yield true and
centroids at distance 0.2 yield false. -/
theorem detectKnucklesTogetherGesture_spec (l r : Hand) :
    (detectKnucklesTogetherGesture l r ↔
      distance (knuckleCentroid l) (knuckleCentroid r) < 0.12)
    ∧ (distance (knuckleCentroid l) (knuckleCentroid r) < 0.12 →
        detectKnucklesTogetherGesture l r)
    ∧ (distance (knuckleCentroid l) (knuckleCentroid r) = 0.2 →
        ¬detectKnucklesTogetherGesture l r) := by
  have key : detectKnucklesTogetherGesture l r ↔
      distance (knuckleCentroid l) (knuckleCentroid r) < 0.12 := by
    unfold detectKnucklesTogetherGesture knuckleCentroid KNUCKLE_MCPS
    simp only [List.map_cons, List.map_nil, List.foldl_cons, List.foldl_nil,
      List.length_cons, List.length_nil]
    norm_num
  refine ⟨key, key.mpr, ?_⟩
  intro h02 hdet
  rw [key] at hdet
  rw [h02] at hdet
  norm_num at hdet

/-- Witness for C8 at two copies of the all-zero skeleton: the centroids
coincide, so the gesture is detected. -/
theorem detectKnucklesTogetherGesture_spec_witness :
    detectKnucklesTogetherGesture zeroHand zeroHand := by
  apply (detectKnucklesTogetherGesture_spec zeroHand zeroHand).2.1
  have h0 : distance (knuckleCentroid zeroHand) (knuckleCentroid zeroHand) = 0 := by
    simp [distance, knuckleCentroid, zeroHand]
  rw [h0]
  norm_num

/-- C6: for every skeleton, `calculateHandRotation` returns roll and yaw in
`[-180, 180]` degrees and pitch in `[-90, 90]` degrees (the pitch `atan2`
takes the absolute value of the y delta as second argument, which is never
negative). -/
theorem calculateHandRotation_spec (lm : Hand) :
    (-180 ≤ (calculateHandRotation lm).roll ∧ (calculateHandRotation lm).roll ≤ 180)
    ∧ (-90 ≤ (calculateHandRotation lm).pitch ∧ (calculateHandRotation lm).pitch ≤ 90)
    ∧ (-180 ≤ (calculateHandRotation lm).yaw ∧ (calculateHandRotation lm).yaw ≤ 180) := by
  simp only [calculateHandRotation]
  refine ⟨?_, ?_, ?_⟩
  · exact radToDeg_bounds (atan2_mem _ _).1 (atan2_mem _ _).2
  · exact radToDeg_bounds_half
      (atan2_mem_of_nonneg _ _ (abs_nonneg _)).1
      (atan2_mem_of_nonneg _ _ (abs_nonneg _)).2
  · exact radToDeg_bounds (atan2_mem _ _).1 (atan2_mem _ _).2

/-- C4 counterexample: the JavaScript `%` keeps the dividend's sign, so at
`a = -270` (where `a + 180 < 0`) the slider value is `-25`, while at
`a + 360 = 90` it is `75`: `rotationToSliderValue` is not 360-periodic on
all angles. -/
theorem rotationToSliderValue_period_counterexample :
    rotationToSliderValue (-270) 0 100 ≠ rotationToSliderValue ((-270) + 360) 0 100 := by
  have hc : (⌈-((1:ℚ)/4)⌉ : ℤ) = 0 := by
    rw [Int.ceil_eq_zero_iff]
    constructor <;> norm_num
  unfold rotationToSliderValue jsRem ratTrunc
  norm_num [hc]

/-- C4 (amended): `rotationToSliderValue (·, 0, 100)` satisfies the period-360
law on every angle `a` with `-180 ≤ a` (so that `a + 180` is nonnegative and
the JavaScript remainder behaves like a true modulus). -/
theorem rotationToSliderValue_periodic_of_le (a : ℚ) (h : -180 ≤ a) :
    rotationToSliderValue a 0 100 = rotationToSliderValue (a + 360) 0 100 := by
  unfold rotationToSliderValue jsRem ratTrunc
  have h1 : (0:ℚ) ≤ (a + 180) / 360 := by
    apply div_nonneg <;> linarith
  have h3 : (a + 360 + 180) / 360 = (a + 180) / 360 + 1 := by ring
  have h2 : (0:ℚ) ≤ (a + 360 + 180) / 360 := by rw [h3]; linarith
  rw [if_pos h1, if_pos h2, h3, Int.floor_add_one]
  push_cast
  ring

/-- Witness for the amended C4 at `a = 0`. -/
theorem rotationToSliderValue_periodic_witness :
    -180 ≤ (0:ℚ) ∧ rotationToSliderValue 0 0 100 = rotationToSliderValue (0 + 360) 0 100 :=
  ⟨by norm_num, rotationToSliderValue_periodic_of_le 0 (by norm_num)⟩

/-- C10 counterexample: with `min = max = 5` (so `min ≤ max`) and the angle
`0 ∈ [-180, 180]`, the slider value is exactly `5 = max`, so the result does
not lie in the half-open interval `[min, max)` and `max` is attained. -/
theorem rotationToSliderValue_max_attained :
    (5:ℚ) ≤ 5 ∧ -180 ≤ (0:ℚ) ∧ (0:ℚ) ≤ 180
      ∧ rotationToSliderValue 0 5 5 = 5 ∧ ¬(rotationToSliderValue 0 5 5 < 5) := by
  unfold rotationToSliderValue jsRem ratTrunc
  norm_num

/-- C10 (amended): for every `min` and `max`, the wrap at the ±180 boundary
sends both endpoints to `min`; and whenever `min < max`, every angle in
`[-180, 180]` yields a value in `[min, max)`, so `max` itself is never
attained. -/
theorem rotationToSliderValue_endpoints_range (lo hi a : ℚ) :
    (rotationToSliderValue 180 lo hi = lo ∧ rotationToSliderValue (-180) lo hi = lo)
    ∧ (lo < hi → -180 ≤ a → a ≤ 180 →
        lo ≤ rotationToSliderValue a lo hi ∧ rotationToSliderValue a lo hi < hi) := by
  constructor
  · constructor <;>
      · unfold rotationToSliderValue jsRem ratTrunc
        norm_num
  · intro hlt h1 h2
    unfold rotationToSliderValue jsRem ratTrunc
    have hq : (0:ℚ) ≤ (a + 180) / 360 := by apply div_nonneg <;> linarith
    rw [if_pos hq]
    have hfr : (a + 180 - 360 * (⌊(a + 180) / 360⌋ : ℚ)) / 360
        = Int.fract ((a + 180) / 360) := by
      rw [Int.fract]
      field_simp
    have hge : (0:ℚ) ≤ Int.fract ((a + 180) / 360) := Int.fract_nonneg _
    have hlt1 : Int.fract ((a + 180) / 360) < 1 := Int.fract_lt_one _
    constructor
    · rw [hfr]
      nlinarith
    · rw [hfr]
      nlinarith

/-- Witness for the amended C10 at `min = 0`, `max = 100`, `a = 90`. -/
theorem rotationToSliderValue_endpoints_range_witness :
    (0:ℚ) < 100 ∧ -180 ≤ (90:ℚ) ∧ (90:ℚ) ≤ 180
      ∧ rotationToSliderValue 180 0 100 = 0
      ∧ 0 ≤ rotationToSliderValue 90 0 100 ∧ rotationToSliderValue 90 0 100 < 100 :=
  ⟨by norm_num, by norm_num, by norm_num,
    (rotationToSliderValue_endpoints_range 0 100 90).1.1,
    ((rotationToSliderValue_endpoints_range 0 100 90).2 (by norm_num) (by norm_num)
      (by norm_num)).1,
    ((rotationToSliderValue_endpoints_range 0 100 90).2 (by norm_num) (by norm_num)
      (by norm_num)).2⟩

end Splat
